import Mathlib

/-!
Verification of the deployadactyl action-lifecycle engine.

A shallow embedding of the `push.Pusher` action (src/unnamed/part_000) and of
`stop.StopController` (src/state/stop/stopcontroller.go), together with
theorems settling the behavioural claims about them.

External collaborators (the Courier command surface, the event bus
subscribers, the Deployer/BlueGreen coordinator, the ErrorFinder) are
modelled as oracles: functions supplied in the structure that give, for each
call, the output bytes and the error the collaborator would return.  The
embedded functions record the sequence of courier calls made, the text
appended to the response sink, and the resulting error, exactly following
the Go control flow (including the LIFO order of deferred statements).

The `data` / `CustomParams` maps and the logger are not modelled: no claim
under consideration depends on them (logging has no observable effect on the
response sink or the returned values).
-/

namespace Deployadactyl

/-! ## Data model -/

structure CFContext where
  organization : String
  space : String
  application : String
  environment : String
deriving DecidableEq, Repr

structure Authorization where
  username : String
  password : String
deriving DecidableEq, Repr

structure Environment where
  name : String
  domain : String
  skipSSL : Bool
  authenticate : Bool
  enableRollback : Bool
  foundations : List String
deriving DecidableEq, Repr

structure DeploymentInfo where
  org : String
  space : String
  appName : String
  environment : String
  uuid : String
  domain : String
  skipSSL : Bool
  username : String
  password : String
  instances : Nat
deriving DecidableEq, Repr

structure Deployment where
  cfContext : CFContext
  authorization : Authorization
deriving DecidableEq, Repr

/-- An error found in the transcript by the ErrorFinder (`I.LogMatchedError`):
a message, detail lines and a suggested solution. -/
structure FoundError where
  message : String
  details : List String
  solution : String
deriving DecidableEq, Repr

/-- Errors that can appear in a `DeployResponse` of the stop flow.
`goError` stands for an arbitrary Go `error` value (e.g. one returned by an
event subscriber), identified by its message.  `eventError` embeds
`deployer.EventError{Type, Err}` and `initializationError` embeds
`bluegreen.InitializationError{Err}`. -/
inductive StopErr where
  | environmentNotFound (env : String)
  | basicAuth
  | initializationError (err : StopErr)
  | eventError (type : String) (err : StopErr)
  | goError (msg : String)
  | foundError (e : FoundError)
deriving DecidableEq, Repr

/-- The `Error()` message of a `StopErr`.  The message texts of the external
error types are not part of the sources under verification; they only flow
into the response transcript and no claim depends on their exact wording. -/
def StopErr.message : StopErr → String
  | .environmentNotFound env => "environment not found: " ++ env
  | .basicAuth => "basic auth error"
  | .initializationError err => "initialization error: " ++ err.message
  | .eventError type err => type ++ ": " ++ err.message
  | .goError msg => msg
  | .foundError e => e.message

structure DeployResponse where
  statusCode : Nat
  error : Option StopErr
  deploymentInfo : Option DeploymentInfo
deriving DecidableEq, Repr

/-! ## Stop controller (src/state/stop/stopcontroller.go) -/

/-- The envelope events of the stop flow, in emission order. -/
inductive StopEvent where
  | started
  | success
  | failure
  | finished
deriving DecidableEq, Repr

/-- Oracle for the event bus as seen by the stop controller: for each
envelope event, the error (if any) returned by `EventManager.EmitEvent`. -/
structure StopEventManager where
  startedRes : Option StopErr
  successRes : Option StopErr
  failureRes : Option StopErr
  finishedRes : Option StopErr

structure Config where
  username : String
  password : String
  environments : List (String × Environment)

/-- The stop controller together with the oracles for its collaborators.
`deploy` stands for `Deployer.Deploy` invoked on the manager produced by the
`StopManagerFactory`: it returns the text it appends to the response and the
`DeployResponse`.  `errorFinder` stands for `ErrorFinder.FindErrors`.
`logUUID` is `Log.UUID`. -/
structure StopController where
  config : Config
  em : StopEventManager
  errorFinder : String → List FoundError
  deploy : DeploymentInfo → Environment → String × DeployResponse
  logUUID : String

/-- Result of a `StopDeployment` call: the emitted envelope events in order,
the final response transcript, whether `Deployer.Deploy` (BlueGreen) was
invoked, and the returned `DeployResponse`. -/
structure StopRun where
  events : List StopEvent
  response : String
  deployerCalled : Bool
  result : DeployResponse
deriving Repr

def StopController.resolveEnvironment (c : StopController) (env : String) :
    Except StopErr Environment :=
  match c.config.environments.lookup env with
  | none => .error (.environmentNotFound env)
  | some e => .ok e

def StopController.resolveAuthorization (c : StopController)
    (auth : Authorization) (envs : Environment) : Except StopErr Authorization :=
  if auth.username = "" ∧ auth.password = "" then
    if envs.authenticate then
      .error .basicAuth
    else
      .ok { username := c.config.username, password := c.config.password }
  else
    .ok auth

/-- The block `printErrors` appends to the transcript for one found error
(the sequence of `fmt.Fprintln` calls, each ending in a newline). -/
def errorBlock (e : FoundError) : String :=
  "\n" ++ "*******************" ++ "\n" ++ "\n" ++
  "The following error was found in the above logs: " ++ e.message ++ "\n" ++ "\n" ++
  "Error: " ++ e.details.headD "" ++ "\n" ++ "\n" ++
  "Potential solution: " ++ e.solution ++ "\n" ++ "\n" ++
  "*******************" ++ "\n"

/-- Model of `StopController.printErrors`: drains the response buffer and writes its
content back (net content unchanged), runs the ErrorFinder over it, and when
matches exist replaces the error with the first match and appends one
formatted block per match. -/
def StopController.printErrors (c : StopController) (response : String)
    (err : StopErr) : String × StopErr :=
  let errors := c.errorFinder response
  match errors with
  | [] => (response, err)
  | e0 :: _ => (response ++ String.join (errors.map errorBlock), .foundError e0)

/-- Model of `StopController.emitStopSuccessOrFailure`: on a non-nil error runs
`printErrors` (which may replace the error) and emits `StopFailureEvent`,
otherwise emits `StopSuccessEvent`; an emission error is written to the
response (with a trailing newline, as `fmt.Fprintln` does) but never changes
the `DeployResponse`. -/
def StopController.emitStopSuccessOrFailure (c : StopController)
    (response : String) (dr : DeployResponse) :
    List StopEvent × String × DeployResponse :=
  match dr.error with
  | some e =>
    let pe := c.printErrors response e
    let dr1 : DeployResponse := { dr with error := some pe.2 }
    match c.em.failureRes with
    | some eventErr => ([.failure], pe.1 ++ eventErr.message ++ "\n", dr1)
    | none => ([.failure], pe.1, dr1)
  | none =>
    match c.em.successRes with
    | some eventErr => ([.success], response ++ eventErr.message ++ "\n", dr)
    | none => ([.success], response, dr)

/-- Model of `StopController.emitStopFinish`: emits `StopFinishedEvent`; the result of
the emission is discarded entirely. -/
def StopController.emitStopFinish (c : StopController) : List StopEvent :=
  let _ := c.em.finishedRes
  [.finished]

/-- The part of `StopDeployment` between the registration of the deferred
emissions and the deferred emissions themselves: emit `StopStartedEvent`; on
a subscriber error return status 500 with
`EventError{Type: "StopStartedEvent", Err: InitializationError{err}}` without
invoking the deployer; otherwise invoke `Deployer.Deploy` on the manager.
Returns (response, deployResponse, deployerCalled). -/
def StopController.runDeploy (c : StopController) (di : DeploymentInfo)
    (environment : Environment) (response : String) :
    String × DeployResponse × Bool :=
  match c.em.startedRes with
  | some err =>
    (response,
     { statusCode := 500,
       error := some (.eventError "StopStartedEvent" (.initializationError err)),
       deploymentInfo := some di },
     false)
  | none =>
    let d := c.deploy di environment
    (response ++ d.1, d.2, true)

/-- The `DeploymentInfo` literal built by `StopDeployment` once environment
and authorization are resolved (the unset `Instances` field keeps the Go
zero value). -/
def mkStopDeploymentInfo (c : StopController) (cf : CFContext)
    (auth : Authorization) (environment : Environment) : DeploymentInfo :=
  { org := cf.organization, space := cf.space, appName := cf.application,
    environment := cf.environment, uuid := c.logUUID,
    domain := environment.domain, skipSSL := environment.skipSSL,
    username := auth.username, password := auth.password, instances := 0 }

/-- The tail of `StopDeployment` once environment and authorization are
resolved: both deferred emissions are registered here, and they run in LIFO
order after the body returns: `emitStopSuccessOrFailure` (registered second)
first, then `emitStopFinish` (registered first). -/
def StopController.stopDeploymentResolved (c : StopController) (cf : CFContext)
    (auth : Authorization) (environment : Environment) (response : String) :
    StopRun :=
  let di := mkStopDeploymentInfo c cf auth environment
  let r := c.runDeploy di environment response
  let sf := c.emitStopSuccessOrFailure r.1 r.2.1
  { events := [.started] ++ sf.1 ++ c.emitStopFinish, response := sf.2.1,
    deployerCalled := r.2.2, result := sf.2.2 }

/-- Model of `StopController.StopDeployment`.  The early returns for an unknown
environment and for failed authorization happen before the defers are
registered, so no envelope event fires on those paths. -/
def StopController.stopDeployment (c : StopController) (deployment : Deployment)
    (response : String) : StopRun :=
  let cf := deployment.cfContext
  match c.resolveEnvironment cf.environment with
  | .error err =>
    { events := [], response := response ++ err.message ++ "\n",
      deployerCalled := false,
      result := { statusCode := 500, error := some err, deploymentInfo := none } }
  | .ok environment =>
    match c.resolveAuthorization deployment.authorization environment with
    | .error err =>
      { events := [], response := response, deployerCalled := false,
        result := { statusCode := 401, error := some err, deploymentInfo := none } }
    | .ok auth => c.stopDeploymentResolved cf auth environment response

/-- Recognizer for the error shape asserted by the specification: an
`InitializationError` wrapping an `EventError` whose `Type` is
`"StopStartedEvent"`. -/
def isInitWrappingStopStartedEventError : Option StopErr → Bool
  | some (.initializationError (.eventError "StopStartedEvent" _)) => true
  | _ => false

/-! ## Pusher (src/unnamed/part_000, package push) -/

/-- The constant `TemporaryNameSuffix` is used when deploying the new application in
order to not override the existing application name. -/
def TemporaryNameSuffix : String := "-new-build-"

/-- The temporary application name of a deployment,
`AppName + TemporaryNameSuffix + UUID` (a function of the `DeploymentInfo`
alone, hence identical across the foundations of one deployment). -/
def tempName (d : DeploymentInfo) : String :=
  d.appName ++ TemporaryNameSuffix ++ d.uuid

/-- One call on the Courier command surface, with its arguments. -/
inductive CourierCall where
  | login (foundationURL username password org space : String) (skipSSL : Bool)
  | push (appName appPath originalName : String) (instances : Nat)
  | logs (appName : String)
  | mapRoute (appName domain hostname : String)
  | unmapRoute (appName domain hostname : String)
  | delete (appName : String)
  | rename (oldName newName : String)
  | appExists (appName : String)
  | cleanUp
deriving DecidableEq, Repr

/-- Oracle for the Courier: for each call, the output bytes and the error
(identified by its message) that the foundation would return.  `Exists`
returns only a boolean in the source. -/
structure Courier where
  loginRes : String → String → String → String → String → Bool → String × Option String
  pushRes : String → String → String → Nat → String × Option String
  logsRes : String → String × Option String
  mapRouteRes : String → String → String → String × Option String
  unmapRouteRes : String → String → String → String × Option String
  deleteRes : String → String × Option String
  renameRes : String → String → String × Option String
  existsRes : String → Bool
  cleanUpRes : Option String

/-- Errors returned by the Pusher phases (the `state` package error types).
`goError` stands for a raw Go `error` returned unwrapped (event-emission
errors in `Execute`, the `CleanUp` error in `Finally`). -/
inductive PushErr where
  | loginError (foundationURL : String) (out : String)
  | pushError
  | cloudFoundryGetLogsError (pushErr logsErr : String)
  | mapRouteError (out : String)
  | unmapRouteError (appName : String) (out : String)
  | deleteApplicationError (appName : String) (out : String)
  | renameError (tempAppName : String) (out : String)
  | goError (msg : String)
deriving DecidableEq, Repr

/-- Oracle for the two event emissions in `Pusher.Execute`: the legacy
`EventManager.Emit(Event{Type: C.PushFinishedEvent, ...})` and the typed
`EventManager.EmitEvent(PushFinishedEvent{...})`. -/
structure PushEventManager where
  emitLegacyPushFinishedRes : Option String
  emitTypedPushFinishedRes : Option String

structure Pusher where
  courier : Courier
  deploymentInfo : DeploymentInfo
  eventManager : PushEventManager
  foundationURL : String
  appPath : String
  environment : Environment

/-- Observable outcome of one Pusher phase: the courier calls made in order,
the text appended to the response sink, and the error returned. -/
structure PhaseResult where
  calls : List CourierCall
  response : String
  error : Option PushErr
deriving DecidableEq, Repr

/-- Sequencing of two phase fragments: calls and response writes concatenate,
the second fragment's error is the result. -/
def seqPhase (r1 r2 : PhaseResult) : PhaseResult :=
  { calls := r1.calls ++ r2.calls, response := r1.response ++ r2.response,
    error := r2.error }

/-- Model of `Pusher.Initially`: login to the foundation; the login output is always
written to the response; on error returns `LoginError{FoundationURL, out}`. -/
def Pusher.Initially (p : Pusher) : PhaseResult :=
  let r := p.courier.loginRes p.foundationURL p.deploymentInfo.username
    p.deploymentInfo.password p.deploymentInfo.org p.deploymentInfo.space
    p.deploymentInfo.skipSSL
  { calls := [.login p.foundationURL p.deploymentInfo.username
      p.deploymentInfo.password p.deploymentInfo.org p.deploymentInfo.space
      p.deploymentInfo.skipSSL],
    response := r.1,
    error := match r.2 with
      | some _ => some (.loginError p.foundationURL r.1)
      | none => none }

/-- Model of `Pusher.Verify`: a no-op for the push flow. -/
def Pusher.Verify (_p : Pusher) : PhaseResult :=
  { calls := [], response := "", error := none }

/-- Model of `Pusher.pushApplication`: pushes under `appName`; two deferred writes
(registered logs-first, so run output-first) put the push output and then the
fetched Cloud Foundry logs on the response, even on error.  On a push error
the logs are fetched; a logs error yields
`CloudFoundryGetLogsError{pushErr, logsErr}`, otherwise `PushError{}`. -/
def Pusher.pushApplication (p : Pusher) (appName appPath : String) : PhaseResult :=
  let r := p.courier.pushRes appName appPath p.deploymentInfo.appName
    p.deploymentInfo.instances
  match r.2 with
  | none =>
    { calls := [.push appName appPath p.deploymentInfo.appName
        p.deploymentInfo.instances],
      response := r.1, error := none }
  | some pushErr =>
    let l := p.courier.logsRes appName
    { calls := [.push appName appPath p.deploymentInfo.appName
        p.deploymentInfo.instances, .logs appName],
      response := r.1 ++ l.1,
      error := match l.2 with
        | some logsErr => some (.cloudFoundryGetLogsError pushErr logsErr)
        | none => some .pushError }

/-- Model of `Pusher.mapTempAppToLoadBalancedDomain`: maps the load-balanced route
onto the temp app; on success writes a confirmation line to the response
(the `MapRoute` output itself is not written); on error returns
`MapRouteError{out}`. -/
def Pusher.mapTempAppToLoadBalancedDomain (p : Pusher) (appName : String) :
    PhaseResult :=
  let r := p.courier.mapRouteRes appName p.deploymentInfo.domain
    p.deploymentInfo.appName
  match r.2 with
  | some _ =>
    { calls := [.mapRoute appName p.deploymentInfo.domain p.deploymentInfo.appName],
      response := "", error := some (.mapRouteError r.1) }
  | none =>
    { calls := [.mapRoute appName p.deploymentInfo.domain p.deploymentInfo.appName],
      response := "application route created: " ++ p.deploymentInfo.appName ++
        "." ++ p.deploymentInfo.domain,
      error := none }

/-- Model of `Pusher.unMapLoadBalancedRoute`: only when a domain is configured,
unmaps the original app's load-balanced route; on error returns
`UnmapRouteError{appName, out}`. -/
def Pusher.unMapLoadBalancedRoute (p : Pusher) : PhaseResult :=
  if p.deploymentInfo.domain ≠ "" then
    let r := p.courier.unmapRouteRes p.deploymentInfo.appName
      p.deploymentInfo.domain p.deploymentInfo.appName
    match r.2 with
    | some _ =>
      { calls := [.unmapRoute p.deploymentInfo.appName p.deploymentInfo.domain
          p.deploymentInfo.appName],
        response := "", error := some (.unmapRouteError p.deploymentInfo.appName r.1) }
    | none =>
      { calls := [.unmapRoute p.deploymentInfo.appName p.deploymentInfo.domain
          p.deploymentInfo.appName],
        response := "", error := none }
  else
    { calls := [], response := "", error := none }

/-- Model of `Pusher.deleteApplication`: deletes `appName`; on error returns
`DeleteApplicationError{appName, out}`. -/
def Pusher.deleteApplication (p : Pusher) (appName : String) : PhaseResult :=
  let r := p.courier.deleteRes appName
  match r.2 with
  | some _ =>
    { calls := [.delete appName], response := "",
      error := some (.deleteApplicationError appName r.1) }
  | none =>
    { calls := [.delete appName], response := "", error := none }

/-- Model of `Pusher.renameNewBuildToOriginalAppName`: renames the temp app to the
original name; on error returns `RenameError{tempName, out}`. -/
def Pusher.renameNewBuildToOriginalAppName (p : Pusher) : PhaseResult :=
  let r := p.courier.renameRes (p.deploymentInfo.appName ++ TemporaryNameSuffix ++
    p.deploymentInfo.uuid) p.deploymentInfo.appName
  match r.2 with
  | some _ =>
    { calls := [.rename (p.deploymentInfo.appName ++ TemporaryNameSuffix ++
        p.deploymentInfo.uuid) p.deploymentInfo.appName],
      response := "",
      error := some (.renameError (p.deploymentInfo.appName ++ TemporaryNameSuffix ++
        p.deploymentInfo.uuid) r.1) }
  | none =>
    { calls := [.rename (p.deploymentInfo.appName ++ TemporaryNameSuffix ++
        p.deploymentInfo.uuid) p.deploymentInfo.appName],
      response := "", error := none }

/-- Model of `Pusher.Execute`: push the temp app, map the load-balanced route when a
domain is configured, then emit the per-foundation `PushFinished` events
(legacy then typed); the first error aborts the phase and is returned. -/
def Pusher.Execute (p : Pusher) : PhaseResult :=
  let tempAppWithUUID := p.deploymentInfo.appName ++ TemporaryNameSuffix ++
    p.deploymentInfo.uuid
  let r1 := p.pushApplication tempAppWithUUID p.appPath
  match r1.error with
  | some _ => r1
  | none =>
    let afterMap :=
      if p.deploymentInfo.domain ≠ "" then
        seqPhase r1 (p.mapTempAppToLoadBalancedDomain tempAppWithUUID)
      else r1
    match afterMap.error with
    | some _ => afterMap
    | none =>
      match p.eventManager.emitLegacyPushFinishedRes with
      | some e => { afterMap with error := some (.goError e) }
      | none =>
        match p.eventManager.emitTypedPushFinishedRes with
        | some e => { afterMap with error := some (.goError e) }
        | none => afterMap

/-- The `Exists` probe made at the start of `Success` and of the rollback
branch of `Undo`. -/
def Pusher.existsProbe (p : Pusher) : PhaseResult :=
  { calls := [.appExists p.deploymentInfo.appName], response := "", error := none }

/-- Model of `Pusher.Success`: if the original app exists, unmap its route (when a
domain is configured), delete it, then rename the temp app to the original
name; if it does not exist, just rename.  Each step's error is returned and
the following steps do not run. -/
def Pusher.Success (p : Pusher) : PhaseResult :=
  if p.courier.existsRes p.deploymentInfo.appName then
    let r1 := p.unMapLoadBalancedRoute
    match r1.error with
    | some _ => seqPhase p.existsProbe r1
    | none =>
      let r2 := p.deleteApplication p.deploymentInfo.appName
      match r2.error with
      | some _ => seqPhase p.existsProbe (seqPhase r1 r2)
      | none =>
        seqPhase p.existsProbe (seqPhase r1 (seqPhase r2
          p.renameNewBuildToOriginalAppName))
  else
    seqPhase p.existsProbe p.renameNewBuildToOriginalAppName

/-- Model of `Pusher.Undo`: when `EnableRollback` is false, degrade to `Success`;
otherwise delete the temp app when the original exists, and rename the temp
app to the original name when it does not. -/
def Pusher.Undo (p : Pusher) : PhaseResult :=
  let tempAppWithUUID := p.deploymentInfo.appName ++ TemporaryNameSuffix ++
    p.deploymentInfo.uuid
  if !p.environment.enableRollback then
    p.Success
  else
    if p.courier.existsRes p.deploymentInfo.appName then
      seqPhase p.existsProbe (p.deleteApplication tempAppWithUUID)
    else
      seqPhase p.existsProbe p.renameNewBuildToOriginalAppName

/-- Model of `Pusher.Finally`: courier cleanup; the error is returned unwrapped. -/
def Pusher.Finally (p : Pusher) : PhaseResult :=
  { calls := [.cleanUp], response := "",
    error := p.courier.cleanUpRes.map .goError }

/-- Number of `MapRoute` calls in a call list. -/
def countMapRoute (l : List CourierCall) : Nat :=
  l.countP fun c => match c with | .mapRoute _ _ _ => true | _ => false

/-- Number of `UnmapRoute` calls in a call list. -/
def countUnmapRoute (l : List CourierCall) : Nat :=
  l.countP fun c => match c with | .unmapRoute _ _ _ => true | _ => false

/-! ## Concrete instances used to instantiate the theorems -/

def envDev : Environment :=
  { name := "dev", domain := "", skipSSL := false, authenticate := false,
    enableRollback := true, foundations := ["https://api.dev"] }

def envSecure : Environment :=
  { name := "secure", domain := "", skipSSL := false, authenticate := true,
    enableRollback := true, foundations := ["https://api.secure"] }

def configOne : Config :=
  { username := "default-user", password := "default-pass",
    environments := [("dev", envDev), ("secure", envSecure)] }

def noFinder : String → List FoundError := fun _ => []

def deployOk : DeploymentInfo → Environment → String × DeployResponse :=
  fun di _ => ("deploy-out",
    { statusCode := 200, error := none, deploymentInfo := some di })

def emAllOk : StopEventManager :=
  { startedRes := none, successRes := none, failureRes := none, finishedRes := none }

def emStartedFails : StopEventManager :=
  { startedRes := some (.goError "boom"), successRes := none, failureRes := none,
    finishedRes := none }

def emSfErrors : StopEventManager :=
  { startedRes := none, successRes := some (.goError "s-err"),
    failureRes := some (.goError "f-err"), finishedRes := some (.goError "fin-err") }

def stopCtrlOk : StopController :=
  { config := configOne, em := emAllOk, errorFinder := noFinder,
    deploy := deployOk, logUUID := "uuid-1" }

def stopCtrlSfErrors : StopController :=
  { config := configOne, em := emSfErrors, errorFinder := noFinder,
    deploy := deployOk, logUUID := "uuid-1" }

def stopCtrlStartedFails : StopController :=
  { config := configOne, em := emStartedFails, errorFinder := noFinder,
    deploy := deployOk, logUUID := "uuid-1" }

def cfDev : CFContext :=
  { organization := "org", space := "space", application := "myapp",
    environment := "dev" }

def cfSecure : CFContext := { cfDev with environment := "secure" }

def deploymentDev : Deployment :=
  { cfContext := cfDev, authorization := { username := "u", password := "pw" } }

def deploymentSecureNoCreds : Deployment :=
  { cfContext := cfSecure, authorization := { username := "", password := "" } }

def diOne : DeploymentInfo :=
  { org := "org", space := "space", appName := "myapp", environment := "dev",
    uuid := "uuid-1", domain := "", skipSSL := false, username := "u",
    password := "pw", instances := 2 }

def diDomain : DeploymentInfo :=
  { diOne with domain := "apps.example.com" }

def courierOk : Courier :=
  { loginRes := fun _ _ _ _ _ _ => ("login-out", none),
    pushRes := fun _ _ _ _ => ("push-out", none),
    logsRes := fun _ => ("cf-logs", none),
    mapRouteRes := fun _ _ _ => ("map-out", none),
    unmapRouteRes := fun _ _ _ => ("unmap-out", none),
    deleteRes := fun _ => ("delete-out", none),
    renameRes := fun _ _ => ("rename-out", none),
    existsRes := fun _ => false,
    cleanUpRes := none }

def courierOkOrigExists : Courier := { courierOk with existsRes := fun _ => true }

def courierPushFails : Courier :=
  { courierOk with pushRes := fun _ _ _ _ => ("push-fail-out", some "push-err") }

def courierPushAndLogsFail : Courier :=
  { courierPushFails with logsRes := fun _ => ("partial-logs", some "logs-err") }

def courierUnmapFails : Courier :=
  { courierOkOrigExists with
    unmapRouteRes := fun _ _ _ => ("unmap-fail-out", some "unmap-err") }

def courierDeleteFails : Courier :=
  { courierOkOrigExists with
    deleteRes := fun _ => ("delete-fail-out", some "delete-err") }

def pemOk : PushEventManager :=
  { emitLegacyPushFinishedRes := none, emitTypedPushFinishedRes := none }

def mkPusher (courier : Courier) (di : DeploymentInfo) (rollback : Bool) : Pusher :=
  { courier := courier, deploymentInfo := di, eventManager := pemOk,
    foundationURL := "https://api.dev", appPath := "/tmp/app",
    environment := { envDev with enableRollback := rollback } }

/-! ## Helper lemmas -/

theorem emitSF_events (c : StopController) (resp : String) (dr : DeployResponse) :
    (c.emitStopSuccessOrFailure resp dr).1 = [StopEvent.failure] ∨
    (c.emitStopSuccessOrFailure resp dr).1 = [StopEvent.success] := by
  unfold StopController.emitStopSuccessOrFailure
  cases dr.error with
  | none => cases c.em.successRes <;> simp
  | some e => cases c.em.failureRes <;> simp

theorem emitSF_result (c : StopController) (resp : String) (dr : DeployResponse) :
    (c.emitStopSuccessOrFailure resp dr).2.2 =
      match dr.error with
      | some e => { dr with error := some (c.printErrors resp e).2 }
      | none => dr := by
  unfold StopController.emitStopSuccessOrFailure
  cases dr.error with
  | none => cases c.em.successRes <;> simp
  | some e => cases c.em.failureRes <;> simp

theorem emitSF_result_noMatch (c : StopController)
    (hf : ∀ s, c.errorFinder s = []) (resp : String) (dr : DeployResponse) :
    (c.emitStopSuccessOrFailure resp dr).2.2 = dr := by
  rw [emitSF_result]
  cases hdr : dr.error with
  | none => rfl
  | some e =>
    obtain ⟨sc, er, di⟩ := dr
    simp only [StopController.printErrors, hf]
    simp_all

theorem resolveEnvironment_congr {c₁ c₂ : StopController}
    (h : c₁.config = c₂.config) (e : String) :
    c₁.resolveEnvironment e = c₂.resolveEnvironment e := by
  unfold StopController.resolveEnvironment
  rw [h]

theorem resolveAuthorization_congr {c₁ c₂ : StopController}
    (h : c₁.config = c₂.config) (auth : Authorization) (envs : Environment) :
    c₁.resolveAuthorization auth envs = c₂.resolveAuthorization auth envs := by
  unfold StopController.resolveAuthorization
  rw [h]

theorem runDeploy_congr {c₁ c₂ : StopController}
    (hstart : c₁.em.startedRes = c₂.em.startedRes) (hdep : c₁.deploy = c₂.deploy)
    (di : DeploymentInfo) (environment : Environment) (response : String) :
    c₁.runDeploy di environment response = c₂.runDeploy di environment response := by
  unfold StopController.runDeploy
  rw [hstart, hdep]

theorem printErrors_congr {c₁ c₂ : StopController}
    (hef : c₁.errorFinder = c₂.errorFinder) (response : String) (err : StopErr) :
    c₁.printErrors response err = c₂.printErrors response err := by
  unfold StopController.printErrors
  rw [hef]

theorem stopDeployment_resolved_eq (c : StopController) (d : Deployment)
    (env : Environment) (auth : Authorization) (resp : String)
    (henv : c.resolveEnvironment d.cfContext.environment = .ok env)
    (hauth : c.resolveAuthorization d.authorization env = .ok auth) :
    c.stopDeployment d resp = c.stopDeploymentResolved d.cfContext auth env resp := by
  unfold StopController.stopDeployment
  simp only [henv, hauth]

/-! ## Claims about the stop controller -/

/-- C9: when exactly one of username and password is non-empty,
`resolveAuthorization` returns the given credentials unchanged and never
fails, even when the environment has `Authenticate` true, and no default
credentials are inherited for the empty field. -/
theorem c9_partial_credentials_pass_through (c : StopController)
    (auth : Authorization) (envs : Environment)
    (h : (auth.username = "" ∧ auth.password ≠ "") ∨
         (auth.username ≠ "" ∧ auth.password = "")) :
    c.resolveAuthorization auth envs = .ok auth := by
  unfold StopController.resolveAuthorization
  rcases h with ⟨h1, h2⟩ | ⟨h1, h2⟩ <;> simp [h1, h2]

theorem c9_witness :
    stopCtrlOk.resolveAuthorization { username := "u", password := "" } envSecure =
      .ok { username := "u", password := "" } :=
  c9_partial_credentials_pass_through stopCtrlOk
    { username := "u", password := "" } envSecure (Or.inr ⟨by decide, rfl⟩)

/-- C8: a `StopDeployment` request carrying empty username and empty
password fails with `BasicAuth` and status 401, emits no event and never
invokes the deployer when the resolved environment has `Authenticate` true;
when `Authenticate` is false, the global default credentials from the
configuration are used instead. -/
theorem c8_auth_resolution
    (c : StopController) (d : Deployment) (env : Environment) (resp : String)
    (hu : d.authorization.username = "") (hpw : d.authorization.password = "")
    (henv : c.resolveEnvironment d.cfContext.environment = .ok env)
    (hauth : env.authenticate = true)
    (c2 : StopController) (auth2 : Authorization) (env2 : Environment)
    (hu2 : auth2.username = "") (hpw2 : auth2.password = "")
    (hauth2 : env2.authenticate = false) :
    ((c.stopDeployment d resp).result.statusCode = 401 ∧
     (c.stopDeployment d resp).result.error = some .basicAuth ∧
     (c.stopDeployment d resp).events = [] ∧
     (c.stopDeployment d resp).deployerCalled = false) ∧
    c2.resolveAuthorization auth2 env2 =
      .ok { username := c2.config.username, password := c2.config.password } := by
  have ha : c.resolveAuthorization d.authorization env = .error .basicAuth := by
    unfold StopController.resolveAuthorization
    simp [hu, hpw, hauth]
  constructor
  · unfold StopController.stopDeployment
    simp [henv, ha]
  · unfold StopController.resolveAuthorization
    simp [hu2, hpw2, hauth2]

theorem c8_witness :
    ((stopCtrlOk.stopDeployment deploymentSecureNoCreds "").result.statusCode = 401 ∧
     (stopCtrlOk.stopDeployment deploymentSecureNoCreds "").result.error =
       some .basicAuth ∧
     (stopCtrlOk.stopDeployment deploymentSecureNoCreds "").events = [] ∧
     (stopCtrlOk.stopDeployment deploymentSecureNoCreds "").deployerCalled = false) ∧
    stopCtrlOk.resolveAuthorization { username := "", password := "" } envDev =
      .ok { username := "default-user", password := "default-pass" } :=
  c8_auth_resolution stopCtrlOk deploymentSecureNoCreds envSecure "" rfl rfl rfl rfl
    stopCtrlOk { username := "", password := "" } envDev rfl rfl rfl

/-- C2: every `StopDeployment` call that reaches the point where both
deferred emissions are registered emits `StopFinished` after the
`StopSuccess`-or-`StopFailure` event: the event trace is exactly
`[Started, Success-or-Failure, Finished]`, so Finished is observed last. -/
theorem c2_finished_emitted_last (c : StopController) (d : Deployment)
    (env : Environment) (auth : Authorization) (resp : String)
    (henv : c.resolveEnvironment d.cfContext.environment = .ok env)
    (hauth : c.resolveAuthorization d.authorization env = .ok auth) :
    ∃ sf, (sf = StopEvent.success ∨ sf = StopEvent.failure) ∧
      (c.stopDeployment d resp).events = [.started, sf, .finished] := by
  rw [stopDeployment_resolved_eq c d env auth resp henv hauth]
  rcases emitSF_events c
      ((c.runDeploy (mkStopDeploymentInfo c d.cfContext auth env) env resp).1)
      ((c.runDeploy (mkStopDeploymentInfo c d.cfContext auth env) env resp).2.1)
    with h | h
  · exact ⟨.failure, Or.inr rfl,
      by simp [StopController.stopDeploymentResolved, StopController.emitStopFinish, h]⟩
  · exact ⟨.success, Or.inl rfl,
      by simp [StopController.stopDeploymentResolved, StopController.emitStopFinish, h]⟩

theorem c2_witness :
    ∃ sf, (sf = StopEvent.success ∨ sf = StopEvent.failure) ∧
      (stopCtrlOk.stopDeployment deploymentDev "").events =
        [.started, sf, .finished] :=
  c2_finished_emitted_last stopCtrlOk deploymentDev envDev
    { username := "u", password := "pw" } "" rfl rfl

/-- C1 counterexample: at a concrete `StopDeployment` call whose
`StopStartedEvent` emission fails, the returned error is *not* an
`InitializationError` wrapping an `EventError` as the claim states — the
nesting in the source is the reverse: an `EventError{Type:
"StopStartedEvent"}` wrapping an `InitializationError` wrapping the
subscriber error. -/
theorem c1_counterexample :
    isInitWrappingStopStartedEventError
        (stopCtrlStartedFails.stopDeployment deploymentDev "").result.error = false ∧
    (stopCtrlStartedFails.stopDeployment deploymentDev "").result.error =
      some (.eventError "StopStartedEvent" (.initializationError (.goError "boom"))) ∧
    (stopCtrlStartedFails.stopDeployment deploymentDev "").result.statusCode = 500 := by
  refine ⟨?_, ?_, ?_⟩ <;> rfl

/-- C1 (amended): when the `StopStartedEvent` emission returns an error, the
operation aborts before the deployer (BlueGreen) is invoked and returns a
`DeployResponse` with status 500 whose error is an `EventError` of Type
`"StopStartedEvent"` wrapping an `InitializationError` wrapping the
subscriber error (unchanged provided the error classifier finds no match in
the transcript), and the Finished event still fires from the deferred
scope, after the Failure event. -/
theorem c1_started_event_error_aborts (c : StopController) (d : Deployment)
    (env : Environment) (auth : Authorization) (resp : String) (e : StopErr)
    (henv : c.resolveEnvironment d.cfContext.environment = .ok env)
    (hauth : c.resolveAuthorization d.authorization env = .ok auth)
    (hstart : c.em.startedRes = some e)
    (hf : c.errorFinder resp = []) :
    (c.stopDeployment d resp).result.statusCode = 500 ∧
    (c.stopDeployment d resp).result.error =
      some (.eventError "StopStartedEvent" (.initializationError e)) ∧
    (c.stopDeployment d resp).deployerCalled = false ∧
    (c.stopDeployment d resp).events = [.started, .failure, .finished] := by
  rw [stopDeployment_resolved_eq c d env auth resp henv hauth]
  unfold StopController.stopDeploymentResolved StopController.runDeploy
  simp only [hstart]
  unfold StopController.emitStopSuccessOrFailure StopController.printErrors
  simp only [hf]
  cases c.em.failureRes <;>
    simp [StopController.emitStopFinish]

theorem c1_witness :
    (stopCtrlStartedFails.stopDeployment deploymentDev "").result.statusCode = 500 ∧
    (stopCtrlStartedFails.stopDeployment deploymentDev "").result.error =
      some (.eventError "StopStartedEvent" (.initializationError (.goError "boom"))) ∧
    (stopCtrlStartedFails.stopDeployment deploymentDev "").deployerCalled = false ∧
    (stopCtrlStartedFails.stopDeployment deploymentDev "").events =
      [.started, .failure, .finished] :=
  c1_started_event_error_aborts stopCtrlStartedFails deploymentDev envDev
    { username := "u", password := "pw" } "" (.goError "boom") rfl rfl rfl rfl

/-- C10: the returned `DeployResponse` of `StopDeployment` does not depend
on the errors returned when emitting the `StopSuccess`, `StopFailure` or
`StopFinished` events — two controllers that agree on everything except
those three emission results return the same status code and error — and
when the error classifier finds no match, the deferred emissions return the
`DeployResponse` of the body unchanged, so the classifier's replacement
with the first found error is the only possible mutation. -/
theorem c10_emission_error_frame (c₁ c₂ : StopController) (d : Deployment)
    (env : Environment) (auth : Authorization) (resp : String)
    (hconf : c₁.config = c₂.config)
    (hstart : c₁.em.startedRes = c₂.em.startedRes)
    (hef : c₁.errorFinder = c₂.errorFinder)
    (hdep : c₁.deploy = c₂.deploy)
    (huuid : c₁.logUUID = c₂.logUUID)
    (henv : c₁.resolveEnvironment d.cfContext.environment = .ok env)
    (hauth : c₁.resolveAuthorization d.authorization env = .ok auth) :
    (c₁.stopDeployment d resp).result = (c₂.stopDeployment d resp).result ∧
    ((∀ s, c₁.errorFinder s = []) →
      (c₁.stopDeployment d resp).result =
        (c₁.runDeploy (mkStopDeploymentInfo c₁ d.cfContext auth env) env resp).2.1) := by
  have henv₂ : c₂.resolveEnvironment d.cfContext.environment = .ok env := by
    rw [← resolveEnvironment_congr hconf]; exact henv
  have hauth₂ : c₂.resolveAuthorization d.authorization env = .ok auth := by
    rw [← resolveAuthorization_congr hconf]; exact hauth
  have hdi : mkStopDeploymentInfo c₁ d.cfContext auth env =
      mkStopDeploymentInfo c₂ d.cfContext auth env := by
    unfold mkStopDeploymentInfo; rw [huuid]
  rw [stopDeployment_resolved_eq c₁ d env auth resp henv hauth,
    stopDeployment_resolved_eq c₂ d env auth resp henv₂ hauth₂]
  unfold StopController.stopDeploymentResolved
  constructor
  · show (c₁.emitStopSuccessOrFailure _ _).2.2 = (c₂.emitStopSuccessOrFailure _ _).2.2
    rw [emitSF_result, emitSF_result, ← hdi,
      ← runDeploy_congr hstart hdep (mkStopDeploymentInfo c₁ d.cfContext auth env) env resp]
    cases ((c₁.runDeploy (mkStopDeploymentInfo c₁ d.cfContext auth env) env resp).2.1).error with
    | none => rfl
    | some e => simp only [printErrors_congr hef]
  · intro hf
    show (c₁.emitStopSuccessOrFailure _ _).2.2 = _
    rw [emitSF_result_noMatch c₁ hf]

theorem c10_witness :
    (stopCtrlOk.stopDeployment deploymentDev "").result =
      (stopCtrlSfErrors.stopDeployment deploymentDev "").result ∧
    (stopCtrlOk.stopDeployment deploymentDev "").result =
      (stopCtrlOk.runDeploy
        (mkStopDeploymentInfo stopCtrlOk deploymentDev.cfContext
          { username := "u", password := "pw" } envDev) envDev "").2.1 := by
  have h := c10_emission_error_frame stopCtrlOk stopCtrlSfErrors deploymentDev
    envDev { username := "u", password := "pw" } "" rfl rfl rfl rfl rfl rfl rfl
  exact ⟨h.1, h.2 fun _ => rfl⟩

/-! ## Helper lemmas about the Pusher phases -/

theorem tempName_ne_appName (d : DeploymentInfo) : tempName d ≠ d.appName := by
  intro h
  have hl := congrArg String.length h
  simp only [tempName, TemporaryNameSuffix, String.length_append] at hl
  have h11 : ("-new-build-" : String).length = 11 := rfl
  omega

theorem deleteApplication_calls (p : Pusher) (n : String) :
    (p.deleteApplication n).calls = [.delete n] := by
  unfold Pusher.deleteApplication
  cases h : (p.courier.deleteRes n).2 <;> simp [h]

theorem rename_calls (p : Pusher) :
    p.renameNewBuildToOriginalAppName.calls =
      [.rename (tempName p.deploymentInfo) p.deploymentInfo.appName] := by
  unfold Pusher.renameNewBuildToOriginalAppName
  cases h : (p.courier.renameRes (p.deploymentInfo.appName ++ TemporaryNameSuffix ++
      p.deploymentInfo.uuid) p.deploymentInfo.appName).2 <;>
    simp [h, tempName]

theorem unMap_calls (p : Pusher) :
    p.unMapLoadBalancedRoute.calls =
      if p.deploymentInfo.domain = "" then []
      else [.unmapRoute p.deploymentInfo.appName p.deploymentInfo.domain
        p.deploymentInfo.appName] := by
  unfold Pusher.unMapLoadBalancedRoute
  by_cases hd : p.deploymentInfo.domain = ""
  · simp [hd]
  · cases h : (p.courier.unmapRouteRes p.deploymentInfo.appName
        p.deploymentInfo.domain p.deploymentInfo.appName).2 <;> simp [hd, h]

theorem mapTemp_calls (p : Pusher) (n : String) :
    (p.mapTempAppToLoadBalancedDomain n).calls =
      [.mapRoute n p.deploymentInfo.domain p.deploymentInfo.appName] := by
  unfold Pusher.mapTempAppToLoadBalancedDomain
  cases h : (p.courier.mapRouteRes n p.deploymentInfo.domain
      p.deploymentInfo.appName).2 <;> simp [h]

theorem pushApplication_calls (p : Pusher) (n pth : String) :
    (p.pushApplication n pth).calls =
      [.push n pth p.deploymentInfo.appName p.deploymentInfo.instances] ∨
    (p.pushApplication n pth).calls =
      [.push n pth p.deploymentInfo.appName p.deploymentInfo.instances, .logs n] := by
  unfold Pusher.pushApplication
  cases h : (p.courier.pushRes n pth p.deploymentInfo.appName
      p.deploymentInfo.instances).2
  · left; simp [h]
  · right
    cases hl : (p.courier.logsRes n).2 <;> simp [h, hl]

theorem success_calls_of_not_exists (p : Pusher)
    (hp : p.courier.existsRes p.deploymentInfo.appName = false) :
    p.Success = seqPhase p.existsProbe p.renameNewBuildToOriginalAppName := by
  unfold Pusher.Success
  simp [hp]

theorem success_calls_of_exists (p : Pusher)
    (hp : p.courier.existsRes p.deploymentInfo.appName = true) :
    p.Success.calls = [.appExists p.deploymentInfo.appName] ++
      p.unMapLoadBalancedRoute.calls ∨
    p.Success.calls = [.appExists p.deploymentInfo.appName] ++
      p.unMapLoadBalancedRoute.calls ++ [.delete p.deploymentInfo.appName] ∨
    p.Success.calls = [.appExists p.deploymentInfo.appName] ++
      p.unMapLoadBalancedRoute.calls ++ [.delete p.deploymentInfo.appName,
        .rename (tempName p.deploymentInfo) p.deploymentInfo.appName] := by
  unfold Pusher.Success
  simp only [hp, if_true]
  cases h1 : p.unMapLoadBalancedRoute.error
  · cases h2 : (p.deleteApplication p.deploymentInfo.appName).error
    · right; right
      simp [h1, h2, seqPhase, Pusher.existsProbe, deleteApplication_calls, rename_calls]
    · right; left
      simp [h1, h2, seqPhase, Pusher.existsProbe, deleteApplication_calls]
  · left
    simp [h1, seqPhase, Pusher.existsProbe]

theorem success_calls (p : Pusher) :
    p.Success.calls = [.appExists p.deploymentInfo.appName] ++
      p.unMapLoadBalancedRoute.calls ∨
    p.Success.calls = [.appExists p.deploymentInfo.appName] ++
      p.unMapLoadBalancedRoute.calls ++ [.delete p.deploymentInfo.appName] ∨
    p.Success.calls = [.appExists p.deploymentInfo.appName] ++
      p.unMapLoadBalancedRoute.calls ++ [.delete p.deploymentInfo.appName,
        .rename (tempName p.deploymentInfo) p.deploymentInfo.appName] ∨
    p.Success.calls = [.appExists p.deploymentInfo.appName,
      .rename (tempName p.deploymentInfo) p.deploymentInfo.appName] := by
  cases hp : p.courier.existsRes p.deploymentInfo.appName
  · right; right; right
    rw [success_calls_of_not_exists p hp]
    simp [seqPhase, Pusher.existsProbe, rename_calls]
  · rcases success_calls_of_exists p hp with h | h | h
    · exact Or.inl h
    · exact Or.inr (Or.inl h)
    · exact Or.inr (Or.inr (Or.inl h))

theorem undo_calls (p : Pusher) :
    p.Undo.calls = p.Success.calls ∨
    p.Undo.calls = [.appExists p.deploymentInfo.appName,
      .delete (tempName p.deploymentInfo)] ∨
    p.Undo.calls = [.appExists p.deploymentInfo.appName,
      .rename (tempName p.deploymentInfo) p.deploymentInfo.appName] := by
  unfold Pusher.Undo
  cases hr : p.environment.enableRollback
  · left; simp [hr]
  · cases he : p.courier.existsRes p.deploymentInfo.appName
    · right; right
      simp [hr, he, seqPhase, Pusher.existsProbe, rename_calls]
    · right; left
      simp [hr, he, seqPhase, Pusher.existsProbe, deleteApplication_calls, tempName]

/-! ## Claims about the Pusher -/

/-- C3: `Undo` degrades to the `Success` path when `EnableRollback` is
false; with rollback enabled it deletes the temp app (and only the temp
app, which differs from the original name) when the original exists, and
renames the temp app to the original name when it does not. -/
theorem c3_undo_behaviour (p q r : Pusher)
    (hp : p.environment.enableRollback = false)
    (hq1 : q.environment.enableRollback = true)
    (hq2 : q.courier.existsRes q.deploymentInfo.appName = true)
    (hr1 : r.environment.enableRollback = true)
    (hr2 : r.courier.existsRes r.deploymentInfo.appName = false) :
    p.Undo = p.Success ∧
    (q.Undo.calls = [.appExists q.deploymentInfo.appName,
        .delete (tempName q.deploymentInfo)] ∧
      tempName q.deploymentInfo ≠ q.deploymentInfo.appName) ∧
    r.Undo.calls = [.appExists r.deploymentInfo.appName,
      .rename (tempName r.deploymentInfo) r.deploymentInfo.appName] := by
  refine ⟨?_, ⟨?_, tempName_ne_appName _⟩, ?_⟩
  · unfold Pusher.Undo
    simp [hp]
  · unfold Pusher.Undo
    simp [hq1, hq2, seqPhase, Pusher.existsProbe, deleteApplication_calls, tempName]
  · unfold Pusher.Undo
    simp [hr1, hr2, seqPhase, Pusher.existsProbe, rename_calls]

theorem c3_witness :
    (mkPusher courierOk diOne false).Undo = (mkPusher courierOk diOne false).Success ∧
    ((mkPusher courierOkOrigExists diOne true).Undo.calls =
        [.appExists "myapp", .delete (tempName diOne)] ∧
      tempName diOne ≠ "myapp") ∧
    (mkPusher courierOk diOne true).Undo.calls =
      [.appExists "myapp", .rename (tempName diOne) "myapp"] :=
  c3_undo_behaviour (mkPusher courierOk diOne false)
    (mkPusher courierOkOrigExists diOne true) (mkPusher courierOk diOne true)
    rfl rfl rfl rfl rfl

/-- C4: when the original app exists, `Success` probes existence, unmaps
the load-balanced route (a courier call only when a domain is configured),
deletes the original app, then renames the temp app to the original name,
in that order; when it does not exist, only the rename is performed.  Any
step's error is returned and the following steps' courier calls do not
happen. -/
theorem c4_success_behaviour (p q r s u : Pusher) (e : PushErr)
    (rout sout : String) (rerr : String)
    (hp : p.courier.existsRes p.deploymentInfo.appName = false)
    (hq1 : q.courier.existsRes q.deploymentInfo.appName = true)
    (hq2 : q.unMapLoadBalancedRoute.error = some e)
    (hr1 : r.courier.existsRes r.deploymentInfo.appName = true)
    (hr2 : r.unMapLoadBalancedRoute.error = none)
    (hr3 : r.courier.deleteRes r.deploymentInfo.appName = (rout, some rerr))
    (hs1 : s.courier.existsRes s.deploymentInfo.appName = true)
    (hs2 : s.unMapLoadBalancedRoute.error = none)
    (hs3 : s.courier.deleteRes s.deploymentInfo.appName = (sout, none)) :
    (p.Success.calls = [.appExists p.deploymentInfo.appName,
        .rename (tempName p.deploymentInfo) p.deploymentInfo.appName] ∧
      p.Success.error = p.renameNewBuildToOriginalAppName.error) ∧
    (q.Success.calls = [.appExists q.deploymentInfo.appName] ++
        q.unMapLoadBalancedRoute.calls ∧
      q.Success.error = some e) ∧
    (r.Success.calls = [.appExists r.deploymentInfo.appName] ++
        r.unMapLoadBalancedRoute.calls ++ [.delete r.deploymentInfo.appName] ∧
      r.Success.error =
        some (.deleteApplicationError r.deploymentInfo.appName rout)) ∧
    (s.Success.calls = [.appExists s.deploymentInfo.appName] ++
        s.unMapLoadBalancedRoute.calls ++ [.delete s.deploymentInfo.appName,
          .rename (tempName s.deploymentInfo) s.deploymentInfo.appName] ∧
      s.Success.error = s.renameNewBuildToOriginalAppName.error) ∧
    u.unMapLoadBalancedRoute.calls =
      (if u.deploymentInfo.domain = "" then []
       else [.unmapRoute u.deploymentInfo.appName u.deploymentInfo.domain
         u.deploymentInfo.appName]) := by
  refine ⟨⟨?_, ?_⟩, ⟨?_, ?_⟩, ⟨?_, ?_⟩, ⟨?_, ?_⟩, unMap_calls u⟩
  · rw [success_calls_of_not_exists p hp]
    simp [seqPhase, Pusher.existsProbe, rename_calls]
  · rw [success_calls_of_not_exists p hp]
    simp [seqPhase]
  · unfold Pusher.Success
    simp [hq1, hq2, seqPhase, Pusher.existsProbe]
  · unfold Pusher.Success
    simp [hq1, hq2, seqPhase]
  · have hd : (r.deleteApplication r.deploymentInfo.appName).error =
        some (.deleteApplicationError r.deploymentInfo.appName rout) := by
      unfold Pusher.deleteApplication
      simp [hr3]
    unfold Pusher.Success
    simp [hr1, hr2, hd, seqPhase, Pusher.existsProbe, deleteApplication_calls]
  · have hd : (r.deleteApplication r.deploymentInfo.appName).error =
        some (.deleteApplicationError r.deploymentInfo.appName rout) := by
      unfold Pusher.deleteApplication
      simp [hr3]
    unfold Pusher.Success
    simp [hr1, hr2, hd, seqPhase]
  · have hd : (s.deleteApplication s.deploymentInfo.appName).error = none := by
      unfold Pusher.deleteApplication
      simp [hs3]
    unfold Pusher.Success
    simp [hs1, hs2, hd, seqPhase, Pusher.existsProbe, deleteApplication_calls,
      rename_calls]
  · have hd : (s.deleteApplication s.deploymentInfo.appName).error = none := by
      unfold Pusher.deleteApplication
      simp [hs3]
    unfold Pusher.Success
    simp [hs1, hs2, hd, seqPhase]

theorem c4_witness :
    ((mkPusher courierOk diOne true).Success.calls =
        [.appExists "myapp", .rename (tempName diOne) "myapp"] ∧
      (mkPusher courierOk diOne true).Success.error =
        (mkPusher courierOk diOne true).renameNewBuildToOriginalAppName.error) ∧
    ((mkPusher courierUnmapFails diDomain true).Success.calls =
        [.appExists "myapp"] ++
          (mkPusher courierUnmapFails diDomain true).unMapLoadBalancedRoute.calls ∧
      (mkPusher courierUnmapFails diDomain true).Success.error =
        some (.unmapRouteError "myapp" "unmap-fail-out")) ∧
    ((mkPusher courierDeleteFails diDomain true).Success.calls =
        [.appExists "myapp"] ++
          (mkPusher courierDeleteFails diDomain true).unMapLoadBalancedRoute.calls ++
          [.delete "myapp"] ∧
      (mkPusher courierDeleteFails diDomain true).Success.error =
        some (.deleteApplicationError "myapp" "delete-fail-out")) ∧
    ((mkPusher courierOkOrigExists diDomain true).Success.calls =
        [.appExists "myapp"] ++
          (mkPusher courierOkOrigExists diDomain true).unMapLoadBalancedRoute.calls ++
          [.delete "myapp", .rename (tempName diDomain) "myapp"] ∧
      (mkPusher courierOkOrigExists diDomain true).Success.error =
        (mkPusher courierOkOrigExists diDomain true).renameNewBuildToOriginalAppName.error) ∧
    (mkPusher courierOk diOne true).unMapLoadBalancedRoute.calls =
      (if diOne.domain = "" then []
       else [.unmapRoute "myapp" diOne.domain "myapp"]) :=
  c4_success_behaviour (mkPusher courierOk diOne true)
    (mkPusher courierUnmapFails diDomain true)
    (mkPusher courierDeleteFails diDomain true)
    (mkPusher courierOkOrigExists diDomain true)
    (mkPusher courierOk diOne true)
    (.unmapRouteError "myapp" "unmap-fail-out") "delete-fail-out" "delete-out"
    "delete-err" rfl rfl rfl rfl rfl rfl rfl rfl rfl

theorem execute_calls_empty_domain (p : Pusher)
    (hd : p.deploymentInfo.domain = "") :
    p.Execute.calls = (p.pushApplication (tempName p.deploymentInfo) p.appPath).calls := by
  unfold Pusher.Execute
  simp only [tempName]
  cases he : (p.pushApplication (p.deploymentInfo.appName ++ TemporaryNameSuffix ++
      p.deploymentInfo.uuid) p.appPath).error <;>
    cases hl : p.eventManager.emitLegacyPushFinishedRes <;>
    cases ht : p.eventManager.emitTypedPushFinishedRes <;>
    simp [he, hd, hl, ht]

theorem execute_calls_push_ok (p : Pusher) (hd : p.deploymentInfo.domain ≠ "")
    (he : (p.pushApplication (tempName p.deploymentInfo) p.appPath).error = none) :
    p.Execute.calls = (p.pushApplication (tempName p.deploymentInfo) p.appPath).calls ++
      [.mapRoute (tempName p.deploymentInfo) p.deploymentInfo.domain
        p.deploymentInfo.appName] := by
  unfold Pusher.Execute
  simp only [tempName] at he ⊢
  cases hm : (p.mapTempAppToLoadBalancedDomain (p.deploymentInfo.appName ++
      TemporaryNameSuffix ++ p.deploymentInfo.uuid)).error <;>
    cases hl : p.eventManager.emitLegacyPushFinishedRes <;>
    cases ht : p.eventManager.emitTypedPushFinishedRes <;>
    simp [he, hd, hm, hl, ht, seqPhase,
      mapTemp_calls p (p.deploymentInfo.appName ++ TemporaryNameSuffix ++
        p.deploymentInfo.uuid)]

theorem execute_error_none_push_ok (p : Pusher) (h : p.Execute.error = none) :
    (p.pushApplication (tempName p.deploymentInfo) p.appPath).error = none := by
  by_contra hne
  obtain ⟨e, he⟩ := Option.ne_none_iff_exists'.mp hne
  unfold Pusher.Execute at h
  simp only [tempName] at he
  simp only [he] at h
  simp at h

theorem countMapRoute_nil : countMapRoute [] = 0 := rfl

theorem countUnmapRoute_nil : countUnmapRoute [] = 0 := rfl

theorem countMapRoute_append (l1 l2 : List CourierCall) :
    countMapRoute (l1 ++ l2) = countMapRoute l1 + countMapRoute l2 :=
  List.countP_append _ _ _

theorem countUnmapRoute_append (l1 l2 : List CourierCall) :
    countUnmapRoute (l1 ++ l2) = countUnmapRoute l1 + countUnmapRoute l2 :=
  List.countP_append _ _ _

theorem pushApplication_no_route_calls (p : Pusher) (n pth : String) :
    countMapRoute (p.pushApplication n pth).calls = 0 ∧
    countUnmapRoute (p.pushApplication n pth).calls = 0 := by
  rcases pushApplication_calls p n pth with h | h <;>
    simp [h, countMapRoute, countUnmapRoute, List.countP_cons, List.countP_nil]

/-- C5: with an empty domain, no phase of the Pusher makes a `MapRoute` or
`UnmapRoute` courier call; with a non-empty domain, a successful `Execute`
makes exactly one `MapRoute` call, and a `Success` call in which the
original app existed makes exactly one `UnmapRoute` call. -/
theorem c5_route_call_counts (p q r : Pusher)
    (hp : p.deploymentInfo.domain = "")
    (hq : q.deploymentInfo.domain ≠ "")
    (hqe : q.Execute.error = none)
    (hr : r.deploymentInfo.domain ≠ "")
    (hre : r.courier.existsRes r.deploymentInfo.appName = true) :
    ((countMapRoute p.Verify.calls = 0 ∧ countUnmapRoute p.Verify.calls = 0) ∧
     (countMapRoute p.Initially.calls = 0 ∧ countUnmapRoute p.Initially.calls = 0) ∧
     (countMapRoute p.Execute.calls = 0 ∧ countUnmapRoute p.Execute.calls = 0) ∧
     (countMapRoute p.Success.calls = 0 ∧ countUnmapRoute p.Success.calls = 0) ∧
     (countMapRoute p.Undo.calls = 0 ∧ countUnmapRoute p.Undo.calls = 0) ∧
     (countMapRoute p.Finally.calls = 0 ∧ countUnmapRoute p.Finally.calls = 0)) ∧
    countMapRoute q.Execute.calls = 1 ∧
    countUnmapRoute r.Success.calls = 1 := by
  have hsucc : countMapRoute p.Success.calls = 0 ∧
      countUnmapRoute p.Success.calls = 0 := by
    rcases success_calls p with h | h | h | h <;>
      simp [h, unMap_calls, hp, countMapRoute, countUnmapRoute,
        List.countP_append, List.countP_cons, List.countP_nil]
  refine ⟨⟨⟨rfl, rfl⟩, ?_, ?_, hsucc, ?_, ⟨rfl, rfl⟩⟩, ?_, ?_⟩
  · unfold Pusher.Initially
    simp [countMapRoute, countUnmapRoute, List.countP_cons, List.countP_nil]
  · rw [execute_calls_empty_domain p hp]
    exact ⟨(pushApplication_no_route_calls p _ _).1,
      (pushApplication_no_route_calls p _ _).2⟩
  · rcases undo_calls p with h | h | h
    · rw [h]; exact hsucc
    · simp [h, countMapRoute, countUnmapRoute, List.countP_cons, List.countP_nil]
    · simp [h, countMapRoute, countUnmapRoute, List.countP_cons, List.countP_nil]
  · rw [execute_calls_push_ok q hq (execute_error_none_push_ok q hqe)]
    rw [countMapRoute_append, (pushApplication_no_route_calls q _ _).1]
    simp [countMapRoute, List.countP_cons, List.countP_nil]
  · rcases success_calls_of_exists r hre with h | h | h <;>
      simp [h, unMap_calls, hr, countMapRoute, countUnmapRoute,
        List.countP_append, List.countP_cons, List.countP_nil]

theorem c5_witness :
    ((countMapRoute (mkPusher courierOk diOne true).Verify.calls = 0 ∧
      countUnmapRoute (mkPusher courierOk diOne true).Verify.calls = 0) ∧
     (countMapRoute (mkPusher courierOk diOne true).Initially.calls = 0 ∧
      countUnmapRoute (mkPusher courierOk diOne true).Initially.calls = 0) ∧
     (countMapRoute (mkPusher courierOk diOne true).Execute.calls = 0 ∧
      countUnmapRoute (mkPusher courierOk diOne true).Execute.calls = 0) ∧
     (countMapRoute (mkPusher courierOk diOne true).Success.calls = 0 ∧
      countUnmapRoute (mkPusher courierOk diOne true).Success.calls = 0) ∧
     (countMapRoute (mkPusher courierOk diOne true).Undo.calls = 0 ∧
      countUnmapRoute (mkPusher courierOk diOne true).Undo.calls = 0) ∧
     (countMapRoute (mkPusher courierOk diOne true).Finally.calls = 0 ∧
      countUnmapRoute (mkPusher courierOk diOne true).Finally.calls = 0)) ∧
    countMapRoute (mkPusher courierOk diDomain true).Execute.calls = 1 ∧
    countUnmapRoute (mkPusher courierOkOrigExists diDomain true).Success.calls = 1 :=
  c5_route_call_counts (mkPusher courierOk diOne true)
    (mkPusher courierOk diDomain true) (mkPusher courierOkOrigExists diDomain true)
    rfl (by decide) rfl (by decide) rfl

theorem execute_calls_cases (p : Pusher) :
    p.Execute.calls = (p.pushApplication (tempName p.deploymentInfo) p.appPath).calls ∨
    p.Execute.calls = (p.pushApplication (tempName p.deploymentInfo) p.appPath).calls ++
      [.mapRoute (tempName p.deploymentInfo) p.deploymentInfo.domain
        p.deploymentInfo.appName] := by
  by_cases hd : p.deploymentInfo.domain = ""
  · exact Or.inl (execute_calls_empty_domain p hd)
  · cases he : (p.pushApplication (tempName p.deploymentInfo) p.appPath).error
    · exact Or.inr (execute_calls_push_ok p hd he)
    · left
      unfold Pusher.Execute
      simp only [tempName] at he ⊢
      simp [he]

theorem execute_push_mem (p : Pusher) (nm pth orig : String) (inst : Nat)
    (hmem : CourierCall.push nm pth orig inst ∈ p.Execute.calls) :
    nm = tempName p.deploymentInfo := by
  rcases execute_calls_cases p with h | h <;>
    rcases pushApplication_calls p (tempName p.deploymentInfo) p.appPath with h2 | h2 <;>
    rw [h, h2] at hmem <;> simp_all

theorem execute_mapRoute_mem (p : Pusher) (nm dom host : String)
    (hmem : CourierCall.mapRoute nm dom host ∈ p.Execute.calls) :
    nm = tempName p.deploymentInfo := by
  rcases execute_calls_cases p with h | h <;>
    rcases pushApplication_calls p (tempName p.deploymentInfo) p.appPath with h2 | h2 <;>
    rw [h, h2] at hmem <;> simp_all

theorem success_rename_mem (p : Pusher) (a b : String)
    (hmem : CourierCall.rename a b ∈ p.Success.calls) :
    a = tempName p.deploymentInfo ∧ b = p.deploymentInfo.appName := by
  have hu := unMap_calls p
  by_cases hd : p.deploymentInfo.domain = "" <;>
    rcases success_calls p with h | h | h | h <;>
    rw [h] at hmem <;> simp [hu, hd] at hmem <;> simp_all

theorem undo_rename_mem (p : Pusher) (a b : String)
    (hmem : CourierCall.rename a b ∈ p.Undo.calls) :
    a = tempName p.deploymentInfo ∧ b = p.deploymentInfo.appName := by
  rcases undo_calls p with h | h | h <;> rw [h] at hmem
  · exact success_rename_mem p a b hmem
  · simp at hmem
  · simp at hmem
    exact hmem

/-- C6: every phase that names the temporary application uses exactly
`AppName ++ "-new-build-" ++ UUID`: the pushed name and the mapped route
target in `Execute`, the deleted app in `Undo`'s rollback branch, and the
rename source in `Success` and `Undo` (whose target is the original name);
the name is a function of the `DeploymentInfo` alone, hence identical
across the foundations of one deployment. -/
theorem c6_temp_name (p q : Pusher) (hdi : p.deploymentInfo = q.deploymentInfo) :
    (∀ nm pth orig inst, CourierCall.push nm pth orig inst ∈ p.Execute.calls →
      nm = tempName p.deploymentInfo) ∧
    (∀ nm dom host, CourierCall.mapRoute nm dom host ∈ p.Execute.calls →
      nm = tempName p.deploymentInfo) ∧
    (∀ a b, CourierCall.rename a b ∈ p.Success.calls →
      a = tempName p.deploymentInfo ∧ b = p.deploymentInfo.appName) ∧
    (∀ a b, CourierCall.rename a b ∈ p.Undo.calls →
      a = tempName p.deploymentInfo ∧ b = p.deploymentInfo.appName) ∧
    (p.environment.enableRollback = true →
      p.courier.existsRes p.deploymentInfo.appName = true →
      p.Undo.calls = [.appExists p.deploymentInfo.appName,
        .delete (tempName p.deploymentInfo)]) ∧
    tempName p.deploymentInfo = tempName q.deploymentInfo ∧
    tempName p.deploymentInfo =
      p.deploymentInfo.appName ++ "-new-build-" ++ p.deploymentInfo.uuid := by
  refine ⟨fun nm pth orig inst h => execute_push_mem p nm pth orig inst h,
    fun nm dom host h => execute_mapRoute_mem p nm dom host h,
    fun a b h => success_rename_mem p a b h,
    fun a b h => undo_rename_mem p a b h, ?_, by rw [hdi], rfl⟩
  intro hroll hex
  unfold Pusher.Undo
  simp [hroll, hex, seqPhase, Pusher.existsProbe, deleteApplication_calls, tempName]

theorem c6_witness :
    (∀ nm pth orig inst, CourierCall.push nm pth orig inst ∈
        (mkPusher courierOkOrigExists diDomain true).Execute.calls →
      nm = tempName diDomain) ∧
    (∀ nm dom host, CourierCall.mapRoute nm dom host ∈
        (mkPusher courierOkOrigExists diDomain true).Execute.calls →
      nm = tempName diDomain) ∧
    (∀ a b, CourierCall.rename a b ∈
        (mkPusher courierOkOrigExists diDomain true).Success.calls →
      a = tempName diDomain ∧ b = diDomain.appName) ∧
    (∀ a b, CourierCall.rename a b ∈
        (mkPusher courierOkOrigExists diDomain true).Undo.calls →
      a = tempName diDomain ∧ b = diDomain.appName) ∧
    ((mkPusher courierOkOrigExists diDomain true).environment.enableRollback = true →
      (mkPusher courierOkOrigExists diDomain true).courier.existsRes
        diDomain.appName = true →
      (mkPusher courierOkOrigExists diDomain true).Undo.calls =
        [.appExists diDomain.appName, .delete (tempName diDomain)]) ∧
    tempName diDomain = tempName diDomain ∧
    tempName diDomain = diDomain.appName ++ "-new-build-" ++ diDomain.uuid :=
  c6_temp_name (mkPusher courierOkOrigExists diDomain true)
    (mkPusher courierOk diDomain false) rfl

/-- C7: the courier `Push` output is written to the response sink even when
`Push` fails; on a push error the application logs are fetched and written
after the push output, and the returned error is `PushError`, or
`CloudFoundryGetLogsError` carrying both errors when fetching the logs also
fails. -/
theorem c7_push_output_and_errors (p q : Pusher) (nm pth po qo qe : String)
    (hp : p.courier.pushRes nm pth p.deploymentInfo.appName
      p.deploymentInfo.instances = (po, none))
    (hq : q.courier.pushRes nm pth q.deploymentInfo.appName
      q.deploymentInfo.instances = (qo, some qe)) :
    p.pushApplication nm pth =
      { calls := [.push nm pth p.deploymentInfo.appName p.deploymentInfo.instances],
        response := po, error := none } ∧
    (q.pushApplication nm pth).calls =
      [.push nm pth q.deploymentInfo.appName q.deploymentInfo.instances, .logs nm] ∧
    (q.pushApplication nm pth).response = qo ++ (q.courier.logsRes nm).1 ∧
    (q.pushApplication nm pth).error =
      some (match (q.courier.logsRes nm).2 with
        | some logsErr => .cloudFoundryGetLogsError qe logsErr
        | none => .pushError) := by
  refine ⟨?_, ?_, ?_, ?_⟩
  · unfold Pusher.pushApplication
    simp [hp]
  · unfold Pusher.pushApplication
    cases hl : (q.courier.logsRes nm).2 <;> simp [hq, hl]
  · unfold Pusher.pushApplication
    cases hl : (q.courier.logsRes nm).2 <;> simp [hq, hl]
  · unfold Pusher.pushApplication
    cases hl : (q.courier.logsRes nm).2 <;> simp [hq, hl]

theorem c7_witness :
    (mkPusher courierOk diOne true).pushApplication (tempName diOne) "/tmp/app" =
      { calls := [.push (tempName diOne) "/tmp/app" "myapp" 2],
        response := "push-out", error := none } ∧
    ((mkPusher courierPushAndLogsFail diOne true).pushApplication
        (tempName diOne) "/tmp/app").calls =
      [.push (tempName diOne) "/tmp/app" "myapp" 2, .logs (tempName diOne)] ∧
    ((mkPusher courierPushAndLogsFail diOne true).pushApplication
        (tempName diOne) "/tmp/app").response =
      "push-fail-out" ++ "partial-logs" ∧
    ((mkPusher courierPushAndLogsFail diOne true).pushApplication
        (tempName diOne) "/tmp/app").error =
      some (.cloudFoundryGetLogsError "push-err" "logs-err") :=
  c7_push_output_and_errors (mkPusher courierOk diOne true)
    (mkPusher courierPushAndLogsFail diOne true) (tempName diOne) "/tmp/app"
    "push-out" "push-fail-out" "push-err" rfl rfl

end Deployadactyl
